import Mathlib

/-!
# Verification of the HLS converter orchestration layer

Shallow embedding of `src/HLSconverter.py`. Pure logic (quality mappings,
worker-pool sizing, encoder-candidate selection, progress aggregation,
batch result collection) is translated into Lean definitions; interaction
with the external `ffmpeg`/`ffprobe` binaries and the OS is parameterised
(exit codes, stdout contents, probe outcomes are inputs to the embedded
functions). Python floats are modelled as rationals (`ℚ`): every claim
checked here is order-theoretic or structural, not about rounding.
-/

namespace HLS

/-! ## Quality (CRF) → encoder-native rate-control mappings

Embeds the per-encoder branches of `convert_single_video`
(src/HLSconverter.py lines 270–297). `crf` is `int(crf_value)`. -/

/-- VideoToolbox branch: `qv = max(1, min(100, 66 - 2 * (int(crf) - 16)))`. -/
def videotoolbox_qv (crf : ℤ) : ℤ := max 1 (min 100 (66 - 2 * (crf - 16)))

/-- NVENC branch: `cq = max(0, min(51, int(crf) + 2))`. -/
def nvenc_cq (crf : ℤ) : ℤ := max 0 (min 51 (crf + 2))

/-- QSV branch: `icq = max(1, min(51, int(crf) + 2))`. -/
def qsv_icq (crf : ℤ) : ℤ := max 1 (min 51 (crf + 2))

/-- AMF branch: `qp = max(0, min(51, int(crf) + 2))`; the same value is
passed for `-qp_i`, `-qp_p` and `-qp_b`. -/
def amf_qp (crf : ℤ) : ℤ := max 0 (min 51 (crf + 2))

/-- Software fallback branch passes `str(int(crf_value))` to `-crf`
unchanged. -/
def software_crf (crf : ℤ) : ℤ := crf

/-- All five rate-control values are inside their encoder family's legal
native range, and the software path is the identity. -/
def quality_mappings_in_range (q : ℤ) : Prop :=
  (1 ≤ videotoolbox_qv q ∧ videotoolbox_qv q ≤ 100) ∧
  (0 ≤ nvenc_cq q ∧ nvenc_cq q ≤ 51) ∧
  (1 ≤ qsv_icq q ∧ qsv_icq q ≤ 51) ∧
  (0 ≤ amf_qp q ∧ amf_qp q ≤ 51) ∧
  software_crf q = q

/-! ## Worker pool size

`MAX_WORKERS = max((os.cpu_count() // 2), 2)` (line 228). Python `//` on a
non-negative int is `Nat` division. -/

/-- `MAX_WORKERS` as a function of `os.cpu_count()`. -/
def MAX_WORKERS (cpu_count : ℕ) : ℕ := max (cpu_count / 2) 2

/-- Abstract semantics of `ThreadPoolExecutor(max_workers=W)` used by
`convert_all_videos_parallel` (line 378): the state is the number of
concurrently running jobs; a job may start only while fewer than `W` run
(each running job owns exactly one spawned external process, line 335);
a running job may finish. -/
inductive PoolStep (W : ℕ) : ℕ → ℕ → Prop
  | start {r : ℕ} : r < W → PoolStep W r (r + 1)
  | stop {r : ℕ} : 0 < r → PoolStep W r (r - 1)

/-- Reachability of a running-job count from another under pool steps. -/
def PoolReach (W : ℕ) : ℕ → ℕ → Prop := Relation.ReflTransGen (PoolStep W)

/-! ## Duration probe

`get_video_duration` (lines 206–218): one `ffprobe` invocation, stdout
parsed by Python `float`; any exception (including an unparseable string,
note `stderr=subprocess.STDOUT`) yields 0. No retry: the invocation
outcome appears exactly once. -/

/-- Python's `s or dflt` for strings: `dflt` when `s` is empty. -/
def pyOr (s dflt : String) : String := if s = "" then dflt else s

/-- Drop leading whitespace characters from a character list. -/
def dropWhitespace : List Char → List Char
  | [] => []
  | c :: cs => if c.isWhitespace then dropWhitespace cs else c :: cs

/-- Python `str.strip()`: whitespace removed from both ends. -/
def pyStrip (s : String) : String :=
  ⟨(dropWhitespace (dropWhitespace s.data).reverse).reverse⟩

/-- `get_video_duration`. `run_stdout` is the `ffprobe` invocation outcome:
`none` when `subprocess.run` itself raised, otherwise the captured stdout.
`pyFloat` models Python `float(...)` on a string, `none` meaning it raised
`ValueError`; both exception paths land in the same `except` and return 0. -/
def get_video_duration (run_stdout : Option String) (pyFloat : String → Option ℚ) : ℚ :=
  match run_stdout with
  | none => 0
  | some out => (pyFloat (pyStrip (pyOr out "0"))).getD 0

/-! ## Encoder detection

`_test_h264_encoder` (lines 93–113) is total: it returns the spawned test
encode's `returncode == 0` and swallows its own exceptions, so it is
modelled as an arbitrary total `test : String → Bool`. The lowercased
`-encoders` listing text is modelled as the list of encoder names it
contains; `"name" in encoders_txt` becomes list membership. -/

inductive Platform
  | darwin
  | windows
  | other
deriving DecidableEq

/-- The `candidates` list built in `detect_gpu_encoder` (lines 135–146):
platform-specific order, each kept only if present in the listing. -/
def encoder_candidates (platform : Platform) (encoders_txt : List String) : List String :=
  match platform with
  | .darwin => if "h264_videotoolbox" ∈ encoders_txt then ["h264_videotoolbox"] else []
  | .windows =>
      (if "h264_nvenc" ∈ encoders_txt then ["h264_nvenc"] else []) ++
      (if "h264_qsv" ∈ encoders_txt then ["h264_qsv"] else []) ++
      (if "h264_amf" ∈ encoders_txt then ["h264_amf"] else [])
  | .other => []

/-- The verification loop `for enc in candidates: if _test_h264_encoder(enc):
return enc` (lines 149–151). -/
def first_verified (test : String → Bool) : List String → Option String
  | [] => none
  | e :: rest => if test e then some e else first_verified test rest

/-- `detect_gpu_encoder` (lines 116–158). `listing` is the outcome of the
`ffmpeg -encoders` invocation: `none` when `subprocess.run` raised (the
surrounding `try` turns any exception into the fallback), otherwise
`(returncode, encoder names in the listing)`. -/
def detect_gpu_encoder (platform : Platform) (listing : Option (ℤ × List String))
    (test : String → Bool) : String :=
  match listing with
  | none => "libx264"
  | some (rc, txt) =>
      if rc ≠ 0 then "libx264"
      else
        match first_verified test (encoder_candidates platform txt) with
        | some enc => enc
        | none => "libx264"

/-- The fixed platform-specific candidate order stated by the spec
(macOS: videotoolbox; Windows: nvenc, qsv, amf). -/
def platform_order (platform : Platform) : List String :=
  match platform with
  | .darwin => ["h264_videotoolbox"]
  | .windows => ["h264_nvenc", "h264_qsv", "h264_amf"]
  | .other => []

/-- Spec-side characterisation of detection: the first candidate, in
platform order, that is both present in the listing and passes the
verification encode; `libx264` when the listing invocation fails or no
candidate verifies. -/
def detect_spec (platform : Platform) (listing : Option (ℤ × List String))
    (test : String → Bool) : String :=
  match listing with
  | none => "libx264"
  | some (rc, txt) =>
      if rc = 0 then
        ((((platform_order platform).filter (fun e => decide (e ∈ txt))).find? test).getD
          "libx264")
      else "libx264"

/-! ## Detection call counting (memoization question)

`detect_gpu_encoder` is called at module level for the global
`encoder = detect_gpu_encoder()` (line 230) and called again inside
`gpu_type_to_string` (line 164), which GUI setup invokes once for the
"GPU Encoder Detected" label (line 692). The instrumented state counts
how many times the expensive detection (listing query plus verification
encodes) actually runs in one process. -/

structure DetectEnv where
  platform : Platform
  listing : Option (ℤ × List String)
  test : String → Bool

structure ProcState where
  detect_calls : ℕ
  encoder : String

/-- One invocation of `detect_gpu_encoder()`: returns its result and
increments the process-wide invocation count. -/
def call_detect (env : DetectEnv) (s : ProcState) : String × ProcState :=
  (detect_gpu_encoder env.platform env.listing env.test,
   { s with detect_calls := s.detect_calls + 1 })

/-- `gpu_type_to_string` (lines 162–176): invokes `detect_gpu_encoder()`
anew and maps the result to a human-readable label. -/
def gpu_type_to_string (env : DetectEnv) (s : ProcState) : String × ProcState :=
  let res := call_detect env s
  let gpu := res.1
  (if gpu = "h264_videotoolbox" then "Apple VideoToolbox"
   else if gpu = "h264_nvenc" then "NVIDIA NVENC"
   else if gpu = "h264_qsv" then "Intel Quick Sync"
   else if gpu = "h264_amf" then "AMD AMF"
   else if gpu = "libx264" then "Software (libx264)"
   else "Unknown GPU Encoder", res.2)

/-- Module-level `encoder = detect_gpu_encoder()` (line 230), starting
from a fresh process. -/
def module_init (env : DetectEnv) : ProcState :=
  let res := call_detect env { detect_calls := 0, encoder := "" }
  { res.2 with encoder := res.1 }

/-- GUI setup (line 692): builds the label
`"GPU Encoder Detected: " + gpu_type_to_string()`. -/
def gui_setup (env : DetectEnv) (s : ProcState) : String × ProcState :=
  let res := gpu_type_to_string env s
  ("GPU Encoder Detected: " ++ res.1, res.2)

/-- Process startup: module initialisation then GUI setup. Conversion jobs
afterwards read `(process_startup env).2.encoder` (the global `encoder`),
which no later code reassigns. -/
def process_startup (env : DetectEnv) : String × ProcState :=
  gui_setup env (module_init env)

/-! ## Progress aggregation

Lines 340–358 of `convert_single_video`: each job owns a local
`last_reported` (indexed here by a job id), the shared
`processed_duration_total[0]` is updated under `lock`. -/

structure AggState where
  processed_total : ℚ
  last_reported : ℕ → ℚ

/-- State at the start of a batch: `processed_duration_total[0] = 0`
(line 375) and every job's `last_reported = 0` (line 340). -/
def init_agg : AggState := { processed_total := 0, last_reported := fun _ => 0 }

/-- One progress sample: job `ev.1` reports `ev.2` processed seconds
(`int(value) / 1_000_000`). Lines 350–354:
`increment = max(0, processed_seconds - last_reported)`;
`last_reported = processed_seconds`; then, under the lock,
`processed_duration_total[0] = min(total_duration_sum,
processed_duration_total[0] + increment)`. -/
def apply_sample (total_duration_sum : ℚ) (s : AggState) (ev : ℕ × ℚ) : AggState :=
  let increment := max 0 (ev.2 - s.last_reported ev.1)
  { processed_total := min total_duration_sum (s.processed_total + increment),
    last_reported := fun k => if k = ev.1 then ev.2 else s.last_reported k }

/-- The sequence of values taken by the shared global total across an
interleaved sample sequence, starting with its current value. -/
def totals_trace (T : ℚ) (s : AggState) : List (ℕ × ℚ) → List ℚ
  | [] => [s.processed_total]
  | ev :: evs => s.processed_total :: totals_trace T (apply_sample T s ev) evs

/-! ## Single conversion job

`convert_single_video` (lines 237–367) as a function of its environment
(probe result, directory-creation outcome, the job's parsed progress
samples in order, the external process's exit status) acting on the
shared state (`RUNNING_PROCS` size and `processed_duration_total[0]`).
The thumbnail step touches no shared state. -/

structure JobEnv where
  video_path : String
  duration : ℚ
  makedirs_ok : Bool
  samples : List ℚ
  exit_ok : Bool

structure SharedState where
  running_procs : ℕ
  processed_total : ℚ

inductive JobEvent
  | spawn
  | procExit
deriving DecidableEq

/-- The progress-reading loop (lines 342–364) restricted to its effect on
the shared total: the job-local `last_reported` starts at 0 and follows
the job's own samples. -/
def run_progress_loop (T : ℚ) (last total : ℚ) : List ℚ → ℚ
  | [] => total
  | v :: vs => run_progress_loop T v (min T (total + max 0 (v - last))) vs

/-- `convert_single_video`: returns `(video_path, success)`, the updated
shared state, and the job's process events. Early returns: probe failure
(`duration <= 0`, line 240) and `os.makedirs` failure (line 247) happen
before the spawn, before `RUNNING_PROCS.add`, before `last_reported` is
created and before any progress update. Otherwise the process is spawned
and registered, progress is streamed, and on natural exit the handle is
discarded; success is `returncode == 0`. -/
def convert_single_video (env : JobEnv) (T : ℚ) (st : SharedState) :
    (String × Bool) × SharedState × List JobEvent :=
  if env.duration ≤ 0 then ((env.video_path, false), st, [])
  else if env.makedirs_ok = false then ((env.video_path, false), st, [])
  else
    ((env.video_path, env.exit_ok),
     { running_procs := st.running_procs,
       processed_total := run_progress_loop T 0 st.processed_total env.samples },
     [JobEvent.spawn, JobEvent.procExit])

/-- A job's result depends only on its own environment: failure when the
probe returns `<= 0` or the output directory cannot be created, otherwise
the external process's own exit status. -/
def job_outcome (env : JobEnv) : String × Bool :=
  (env.video_path, !decide (env.duration ≤ 0) && env.makedirs_ok && env.exit_ok)

/-! ## Batch run

`convert_all_videos_parallel` (lines 371–395): one submitted job per
selected video; every future's result is collected in submission order;
an error box is shown per failed item; then a single "Done" box; the
`finally` block resets the UI. Jobs are modelled sequentially: each
job's `(path, success)` outcome depends only on its own environment, so
the collected results are interleaving-independent. -/

inductive BatchEvent
  | errorBox (path : String)
  | doneBox
  | resetUI
deriving DecidableEq

def is_doneBox : BatchEvent → Bool
  | .doneBox => true
  | _ => false

/-- Collect every job's `future.result()` in submission order, threading
the shared state. -/
def collect_results (T : ℚ) (st : SharedState) : List JobEnv → List (String × Bool) × SharedState
  | [] => ([], st)
  | env :: rest =>
      let one := convert_single_video env T st
      let more := collect_results T one.2.1 rest
      (one.1 :: more.1, more.2)

/-- The `for future in futures` loop body (lines 382–385): an error box
for each failed item, in result order. -/
def report_failures : List (String × Bool) → List BatchEvent
  | [] => []
  | r :: rest =>
      if r.2 then report_failures rest else BatchEvent.errorBox r.1 :: report_failures rest

/-- `convert_all_videos_parallel`: `total_duration` is the sum of probed
durations (line 374), the shared total is reset to 0 (line 375), all jobs
are submitted and collected, per-failure error boxes are emitted, then
one "Done" box (line 387), then the `finally` UI reset (lines 389–395). -/
def convert_all_videos_parallel (jobs : List JobEnv) :
    List (String × Bool) × List BatchEvent :=
  let T := (jobs.map (fun e => e.duration)).sum
  let res := collect_results T { running_procs := 0, processed_total := 0 } jobs
  (res.1, report_failures res.1 ++ [BatchEvent.doneBox, BatchEvent.resetUI])

/-! ## Output layout and built invocations -/

/-- `os.path.join` for the (separator-free) components joined here. -/
def path_join (a b : String) : String := a ++ "/" ++ b

/-- Line 244: the base output directory is the stripped custom directory
when non-empty, otherwise the input file's own directory. -/
def base_output_dir_of (custom_output_dir dirname_of_input : String) : String :=
  if pyStrip custom_output_dir = "" then dirname_of_input else pyStrip custom_output_dir

/-- Line 245: `output_dir = os.path.join(base_output_dir, video_name)`. -/
def output_dir_of (base_output_dir video_name : String) : String :=
  path_join base_output_dir video_name

/-- Line 254: the playlist target `os.path.join(output_dir, "output.m3u8")`. -/
def output_file_of (od : String) : String := path_join od "output.m3u8"

/-- Line 255: the segment-filename pattern
`os.path.join(output_dir, "output%0d.ts")` — a printf-style decimal index
carrying the zero-pad flag, in the same directory as the playlist. -/
def seg_pattern_of (od : String) : String := path_join od "output%0d.ts"

/-- The encoder-specific rate-control argument block (lines 270–297). -/
def rate_control_args (encoder : String) (crf : ℤ) : List String :=
  if encoder = "h264_videotoolbox" then ["-q:v", toString (videotoolbox_qv crf)]
  else if encoder = "h264_nvenc" then
    ["-rc:v", "vbr_hq", "-cq", toString (nvenc_cq crf), "-b:v", "0",
     "-maxrate", "0", "-bufsize", "0", "-preset", "p5"]
  else if encoder = "h264_qsv" then
    ["-preset", "fast", "-rc:v", "icq", "-global_quality", toString (qsv_icq crf)]
  else if encoder = "h264_amf" then
    ["-quality", "balanced", "-rc", "cqp", "-qp_i", toString (amf_qp crf),
     "-qp_p", toString (amf_qp crf), "-qp_b", toString (amf_qp crf)]
  else ["-preset", "fast", "-crf", toString (software_crf crf)]

/-- The full transcoding invocation built by `convert_single_video`
(lines 260–321). -/
def ffmpeg_cmd (ffmpeg_bin video_path encoder : String) (crf : ℤ) (od : String) :
    List String :=
  [ffmpeg_bin, "-i", video_path,
   "-c:v", encoder, "-profile:v", "high", "-level", "4.0", "-pix_fmt", "yuv420p"]
  ++ rate_control_args encoder crf
  ++ ["-threads", "0", "-g", "240", "-keyint_min", "240", "-sc_threshold", "0",
      "-c:a", "aac", "-b:a", "128k", "-ac", "2", "-ar", "48000",
      "-f", "hls", "-hls_time", "10", "-hls_playlist_type", "vod",
      "-hls_segment_type", "mpegts", "-hls_flags", "independent_segments",
      "-hls_segment_filename", seg_pattern_of od,
      output_file_of od,
      "-progress", "pipe:1", "-nostats"]

/-- Line 76: `quarter_time = duration * 0.25`. -/
def quarter_time (duration : ℚ) : ℚ := duration * (25 / 100)

/-- Two-digit zero padding used by `strftime("%H:%M:%S", ...)`. -/
def pad2 (n : ℕ) : String := if n < 10 then "0" ++ toString n else toString n

/-- Line 77: `time.strftime("%H:%M:%S", time.gmtime(quarter_time))` —
whole seconds of the seek instant rendered as HH:MM:SS (hours wrap
mod 24, as `gmtime` folds into a calendar day). -/
def seek_str (t : ℚ) : String :=
  let s := (⌊t⌋).toNat
  pad2 (s / 3600 % 24) ++ ":" ++ pad2 (s % 3600 / 60) ++ ":" ++ pad2 (s % 60)

/-- `generate_thumbnail` (lines 70–90): skipped (`none`) when the probed
duration is `<= 0`, otherwise one invocation seeking to the quarter-point
and writing a single frame to `output_dir/thumbnail.jpg`. -/
def thumbnail_cmd (ffmpeg_bin input_path od : String) (duration : ℚ) :
    Option (List String) :=
  if duration ≤ 0 then none
  else some [ffmpeg_bin, "-y", "-ss", seek_str (quarter_time duration),
             "-i", input_path, "-frames:v", "1", path_join od "thumbnail.jpg"]

end HLS

namespace HLS

/-! ## Theorems -/

/-- C2: for every quality input in the UI range [16,28], each encoder
family's computed rate-control parameter lies within that family's legal
native range — VideoToolbox `-q:v` in [1,100], NVENC `-cq` in [0,51],
QSV `-global_quality` in [1,51], AMF `-qp_i`/`-qp_p`/`-qp_b` in [0,51] —
and the software path passes the integer CRF through unchanged. -/
theorem c2_quality_mapping_clamp (q : ℤ) (h1 : 16 ≤ q) (h2 : q ≤ 28) :
    quality_mappings_in_range q := by
  unfold quality_mappings_in_range videotoolbox_qv nvenc_cq qsv_icq amf_qp software_crf
  omega

/-- C2 witness: quality 16 and quality 28 both produce in-range values
for every encoder family. -/
theorem c2_quality_mapping_clamp_witness :
    quality_mappings_in_range 16 ∧ quality_mappings_in_range 28 :=
  ⟨c2_quality_mapping_clamp 16 (by norm_num) (by norm_num),
   c2_quality_mapping_clamp 28 (by norm_num) (by norm_num)⟩

/-- C10: for quality inputs q1 ≤ q2 in [16,28], the NVENC, QSV, AMF and
software mappings are monotone non-decreasing, while the VideoToolbox
`-q:v` mapping is monotone non-increasing (its scale is inverted). -/
theorem c10_quality_order_preserved (q1 q2 : ℤ) (ha : 16 ≤ q1) (hb : q1 ≤ q2)
    (hc : q2 ≤ 28) :
    nvenc_cq q1 ≤ nvenc_cq q2 ∧ qsv_icq q1 ≤ qsv_icq q2 ∧ amf_qp q1 ≤ amf_qp q2 ∧
    software_crf q1 ≤ software_crf q2 ∧ videotoolbox_qv q2 ≤ videotoolbox_qv q1 := by
  unfold nvenc_cq qsv_icq amf_qp software_crf videotoolbox_qv
  omega

/-- C10 witness at the concrete pair (17, 24). -/
theorem c10_quality_order_preserved_witness :
    nvenc_cq 17 ≤ nvenc_cq 24 ∧ qsv_icq 17 ≤ qsv_icq 24 ∧ amf_qp 17 ≤ amf_qp 24 ∧
    software_crf 17 ≤ software_crf 24 ∧ videotoolbox_qv 24 ≤ videotoolbox_qv 17 :=
  c10_quality_order_preserved 17 24 (by norm_num) (by norm_num) (by norm_num)

/-- Pool-step reachability preserves the worker-count upper bound. -/
theorem pool_reach_le {W a b : ℕ} (h : PoolReach W a b) (ha : a ≤ W) : b ≤ W := by
  induction h with
  | refl => exact ha
  | tail _ hstep ih =>
      cases hstep with
      | start hlt => omega
      | stop hpos => omega

/-- C6 counterexample: `MAX_WORKERS = max(os.cpu_count() // 2, 2)` has no
upper cap — no bound `B` dominates it for every host CPU count (at
`cpu_count = 2 * B + 2` the pool size is `B + 1`). -/
theorem c6_no_upper_cap : ¬ ∃ B : ℕ, ∀ cpu_count : ℕ, MAX_WORKERS cpu_count ≤ B := by
  rintro ⟨B, h⟩
  have hB := h (2 * B + 2)
  unfold MAX_WORKERS at hB
  omega

/-- C6 (amended): the pool size `max(cpu_count // 2, 2)` guarantees a
floor of at least 2 concurrent jobs for every host CPU count, and the
number of concurrently running jobs — one external process per running
job — never exceeds `MAX_WORKERS` in any pool execution; but there is no
CPU-independent upper cap. -/
theorem c6_worker_pool_bound :
    (∀ cpu_count : ℕ, 2 ≤ MAX_WORKERS cpu_count) ∧
    (∀ (cpu_count r : ℕ), PoolReach (MAX_WORKERS cpu_count) 0 r →
      r ≤ MAX_WORKERS cpu_count) := by
  constructor
  · intro n
    unfold MAX_WORKERS
    omega
  · intro n r h
    exact pool_reach_le h (Nat.zero_le _)

/-- C6 witness: on an 8-CPU host the pool allows at least 2 jobs, and the
concrete run that starts two jobs stays within the bound. -/
theorem c6_worker_pool_bound_witness :
    2 ≤ MAX_WORKERS 1 ∧ 2 ≤ MAX_WORKERS 8 :=
  ⟨c6_worker_pool_bound.1 1,
   c6_worker_pool_bound.2 8 2
     (Relation.ReflTransGen.tail
       (Relation.ReflTransGen.tail Relation.ReflTransGen.refl
         (PoolStep.start (by decide)))
       (PoolStep.start (by decide)))⟩

/-- C8: the duration probe is total and retry-free — it returns the
parsed float seconds when the single `ffprobe` invocation and the parse
succeed, and returns 0 whenever the invocation raises, stdout is empty
(tool error), or the output is unparseable. -/
theorem c8_duration_probe_total (pyFloat : String → Option ℚ)
    (h0 : pyFloat "0" = some 0) :
    get_video_duration none pyFloat = 0 ∧
    get_video_duration (some "") pyFloat = 0 ∧
    (∀ out, pyFloat (pyStrip (pyOr out "0")) = none → get_video_duration (some out) pyFloat = 0) ∧
    (∀ out d, pyFloat (pyStrip (pyOr out "0")) = some d →
      get_video_duration (some out) pyFloat = d) := by
  refine ⟨rfl, ?_, ?_, ?_⟩
  · show (pyFloat (pyStrip (pyOr "" "0"))).getD 0 = 0
    have htrim : pyStrip (pyOr "" "0") = "0" := by decide
    rw [htrim, h0]
    rfl
  · intro out h
    show (pyFloat (pyStrip (pyOr out "0"))).getD 0 = 0
    rw [h]
    rfl
  · intro out d h
    show (pyFloat (pyStrip (pyOr out "0"))).getD 0 = d
    rw [h]
    rfl

/-- C8 witness with the concrete parse function mapping only "0" to 0. -/
theorem c8_duration_probe_total_witness :
    (fun s => if s = "0" then some (0 : ℚ) else none) "0" = some 0 ∧
    (get_video_duration none (fun s => if s = "0" then some (0 : ℚ) else none) = 0 ∧
     get_video_duration (some "") (fun s => if s = "0" then some (0 : ℚ) else none) = 0 ∧
     (∀ out, (fun s => if s = "0" then some (0 : ℚ) else none) (pyStrip (pyOr out "0")) = none →
       get_video_duration (some out) (fun s => if s = "0" then some (0 : ℚ) else none) = 0) ∧
     (∀ out d, (fun s => if s = "0" then some (0 : ℚ) else none) (pyStrip (pyOr out "0")) = some d →
       get_video_duration (some out) (fun s => if s = "0" then some (0 : ℚ) else none) = d)) :=
  ⟨by decide, c8_duration_probe_total _ (by decide)⟩

end HLS

namespace HLS

/-- The verification loop is `List.find?` over the candidate list. -/
theorem first_verified_eq_find? (test : String → Bool) (l : List String) :
    first_verified test l = l.find? test := by
  induction l with
  | nil => rfl
  | cons e rest ih =>
      cases h : test e with
      | true => simp [first_verified, h, List.find?_cons_of_pos]
      | false => simp [first_verified, h, List.find?_cons_of_neg, ih]

/-- The candidate list built by the code is the fixed platform order
filtered by presence in the listing. -/
theorem encoder_candidates_eq_filter (platform : Platform) (txt : List String) :
    encoder_candidates platform txt
      = (platform_order platform).filter (fun e => decide (e ∈ txt)) := by
  cases platform with
  | darwin =>
      by_cases h : "h264_videotoolbox" ∈ txt <;>
        simp [encoder_candidates, platform_order, h]
  | windows =>
      by_cases h1 : "h264_nvenc" ∈ txt <;> by_cases h2 : "h264_qsv" ∈ txt <;>
        by_cases h3 : "h264_amf" ∈ txt <;>
        simp [encoder_candidates, platform_order, h1, h2, h3]
  | other => rfl

/-- C4: encoder detection returns the first candidate, in the
platform-specific order (macOS: videotoolbox; Windows: nvenc, qsv, amf),
that is both present in the `-encoders` listing and passes the short
verification encode; if the listing invocation fails (exception or
non-zero exit) or no candidate verifies, it returns `libx264`. The
embedded function is total, so no error ever reaches the caller. -/
theorem c4_detection_first_verified_or_fallback
    (platform : Platform) (listing : Option (ℤ × List String)) (test : String → Bool) :
    detect_gpu_encoder platform listing test = detect_spec platform listing test := by
  cases listing with
  | none => rfl
  | some p =>
      obtain ⟨rc, txt⟩ := p
      by_cases h : rc = 0
      · simp only [detect_gpu_encoder, detect_spec, h, if_pos rfl, ite_true, ne_eq,
          not_true_eq_false, if_false]
        rw [encoder_candidates_eq_filter, first_verified_eq_find?]
        cases hf : ((platform_order platform).filter (fun e => decide (e ∈ txt))).find? test with
        | none => simp
        | some enc => simp
      · simp [detect_gpu_encoder, detect_spec, h]

/-- C5 counterexample: detection is not memoized. In a process whose
platform has no hardware candidates, startup (module-level
`encoder = detect_gpu_encoder()` followed by GUI setup's
`gpu_type_to_string()`) runs the expensive detection twice, refuting
"runs at most once per process". -/
theorem c5_detection_runs_twice :
    ¬ ((process_startup
        { platform := Platform.other, listing := none, test := fun _ => false }).2.detect_calls
      ≤ 1) := by
  decide

/-- C5 (amended): the detection routine itself is not memoized — process
startup invokes it exactly twice, once for the module-level global
`encoder` and once more inside `gpu_type_to_string` for the GUI label —
but the encoder value used by every conversion job is the module-level
global, assigned once from the first detection and never reassigned. -/
theorem c5_global_encoder_assigned_once (env : DetectEnv) :
    (process_startup env).2.detect_calls = 2 ∧
    (process_startup env).2.encoder
      = detect_gpu_encoder env.platform env.listing env.test := by
  constructor <;> rfl

end HLS

namespace HLS

/-- The first value of a totals trace is the current global total. -/
theorem totals_trace_head (T : ℚ) (s : AggState) (evs : List (ℕ × ℚ)) :
    (totals_trace T s evs).head? = some s.processed_total := by
  cases evs <;> rfl

/-- A sample never decreases the global total while it is clamped below
the duration sum. -/
theorem apply_sample_le (T : ℚ) (s : AggState) (ev : ℕ × ℚ)
    (h : s.processed_total ≤ T) :
    s.processed_total ≤ (apply_sample T s ev).processed_total :=
  le_min h (le_add_of_nonneg_right (le_max_left 0 _))

/-- A sample leaves the global total clamped to the duration sum. -/
theorem apply_sample_ub (T : ℚ) (s : AggState) (ev : ℕ × ℚ) :
    (apply_sample T s ev).processed_total ≤ T :=
  min_le_left _ _

/-- Monotonicity and the clamp hold along every sample interleaving, from
any state already below the clamp. -/
theorem totals_trace_mono_bounded (T : ℚ) :
    ∀ (evs : List (ℕ × ℚ)) (s : AggState), s.processed_total ≤ T →
      List.Chain' (fun a b => a ≤ b) (totals_trace T s evs) ∧
      ∀ x ∈ totals_trace T s evs, x ≤ T := by
  intro evs
  induction evs with
  | nil =>
      intro s hs
      refine ⟨List.chain'_singleton _, ?_⟩
      intro x hx
      rw [totals_trace, List.mem_singleton] at hx
      simpa [hx] using hs
  | cons ev evs ih =>
      intro s hs
      obtain ⟨hchain, hub⟩ := ih (apply_sample T s ev) (apply_sample_ub T s ev)
      constructor
      · rw [totals_trace, List.chain'_cons']
        refine ⟨?_, hchain⟩
        intro b hb
        rw [totals_trace_head, Option.mem_some_iff] at hb
        subst hb
        exact apply_sample_le T s ev hs
      · intro x hx
        rw [totals_trace] at hx
        rcases List.mem_cons.mp hx with h | h
        · exact h ▸ hs
        · exact hub x h

/-- C1: for every interleaved sequence of progress samples over any set
of jobs — repeated, backwards-running or resetting per-job counters
included — the shared global processed total starts at 0, is
monotonically non-decreasing across updates, and never exceeds
`total_duration_sum`: each sample contributes
`max(0, newValue - lastReported)` against the job-local `last_reported`
and the running sum is clamped under the lock. -/
theorem c1_monotonic_aggregation (T : ℚ) (hT : 0 ≤ T) (samples : List (ℕ × ℚ)) :
    List.Chain' (fun a b => a ≤ b) (totals_trace T init_agg samples) ∧
    ∀ x ∈ totals_trace T init_agg samples, x ≤ T :=
  totals_trace_mono_bounded T samples init_agg (by simpa [init_agg] using hT)

/-- C1 witness: a concrete interleaving of two jobs against a 5-second
total, with job 0's counter going backwards on its second sample. -/
theorem c1_monotonic_aggregation_witness :
    (0 : ℚ) ≤ 5 ∧
    (List.Chain' (fun a b => a ≤ b) (totals_trace 5 init_agg [(0, 2), (1, 3), (0, 1)]) ∧
     ∀ x ∈ totals_trace 5 init_agg [(0, 2), (1, 3), (0, 1)], x ≤ 5) :=
  ⟨by norm_num, c1_monotonic_aggregation 5 (by norm_num) [(0, 2), (1, 3), (0, 1)]⟩

/-- C9: when the probe succeeded but the per-item output directory cannot
be created, the job fails before any external process is spawned: the
shared progress total and the live-process registry are returned
untouched, no process event occurs, and the job-local `last_reported`
counter is never created. -/
theorem c9_setup_failure_atomic (env : JobEnv) (T : ℚ) (st : SharedState)
    (hd : 0 < env.duration) (hm : env.makedirs_ok = false) :
    convert_single_video env T st = ((env.video_path, false), st, []) := by
  unfold convert_single_video
  rw [if_neg (not_le.mpr hd), if_pos hm]

/-- C9 witness at a concrete job whose directory creation fails. -/
theorem c9_setup_failure_atomic_witness :
    (0 : ℚ) < 7 ∧
    convert_single_video
        { video_path := "a.mp4", duration := 7, makedirs_ok := false,
          samples := [1, 2], exit_ok := true } 7
        { running_procs := 0, processed_total := 0 }
      = (("a.mp4", false), { running_procs := 0, processed_total := 0 }, []) :=
  ⟨by norm_num, c9_setup_failure_atomic _ 7 _ (by norm_num) rfl⟩

end HLS

namespace HLS

/-- A job's returned `(path, success)` pair depends only on its own
environment, never on the shared state it ran against. -/
theorem convert_single_video_fst (env : JobEnv) (T : ℚ) (st : SharedState) :
    (convert_single_video env T st).1 = job_outcome env := by
  by_cases h1 : env.duration ≤ 0
  · simp [convert_single_video, job_outcome, h1]
  · cases h2 : env.makedirs_ok
    · simp [convert_single_video, job_outcome, h1, h2]
    · simp [convert_single_video, job_outcome, h1, h2]

/-- Collected batch results are the per-job outcomes in submission order,
for any starting shared state. -/
theorem collect_results_fst (T : ℚ) :
    ∀ (jobs : List JobEnv) (st : SharedState),
      (collect_results T st jobs).1 = jobs.map job_outcome := by
  intro jobs
  induction jobs with
  | nil => intro st; rfl
  | cons env rest ih =>
      intro st
      simp [collect_results, convert_single_video_fst, ih]

/-- The failure-report loop emits exactly one error box per failed item,
in order. -/
theorem report_failures_eq (l : List (String × Bool)) :
    report_failures l
      = (l.filter (fun r => !r.2)).map (fun r => BatchEvent.errorBox r.1) := by
  induction l with
  | nil => rfl
  | cons r rest ih =>
      cases h : r.2 <;> simp [report_failures, h, ih, List.filter_cons]

/-- No completion box appears among the failure reports. -/
theorem countP_doneBox_report (l : List (String × Bool)) :
    (report_failures l).countP is_doneBox = 0 := by
  rw [report_failures_eq, List.countP_eq_zero]
  intro e he
  rw [List.mem_map] at he
  obtain ⟨r, _, rfl⟩ := he
  simp [is_doneBox]

/-- C3: in every batch — including one where some job's external process
exits non-zero or its setup fails — every submitted job reaches a
terminal outcome determined solely by its own environment; the emitted
error boxes are exactly the failed items, in order; and the
batch-completion box is emitted exactly once, after all per-item failure
reports and before only the final UI reset. -/
theorem c3_partial_failure_isolation (jobs : List JobEnv) :
    (convert_all_videos_parallel jobs).1 = jobs.map job_outcome ∧
    (convert_all_videos_parallel jobs).2
      = ((jobs.map job_outcome).filter (fun r => !r.2)).map
          (fun r => BatchEvent.errorBox r.1)
        ++ [BatchEvent.doneBox, BatchEvent.resetUI] ∧
    (convert_all_videos_parallel jobs).2.countP is_doneBox = 1 := by
  have hres : (convert_all_videos_parallel jobs).1 = jobs.map job_outcome := by
    show (collect_results ((jobs.map (fun e => e.duration)).sum)
        { running_procs := 0, processed_total := 0 } jobs).1 = jobs.map job_outcome
    exact collect_results_fst _ jobs _
  have h2 : (convert_all_videos_parallel jobs).2
      = report_failures (jobs.map job_outcome)
        ++ [BatchEvent.doneBox, BatchEvent.resetUI] := by
    show report_failures ((collect_results ((jobs.map (fun e => e.duration)).sum)
        { running_procs := 0, processed_total := 0 } jobs).1)
        ++ [BatchEvent.doneBox, BatchEvent.resetUI] = _
    rw [collect_results_fst]
  refine ⟨hres, ?_, ?_⟩
  · rw [h2, report_failures_eq]
  · rw [h2, List.countP_append, countP_doneBox_report]
    rfl

/-- C7: for input `name.ext` and chosen base output directory, the built
invocation targets `outputDir/name/output.m3u8` as the playlist, with the
media-segment pattern `outputDir/name/output%0d.ts` — a deterministic
printf-style decimal-index name carrying the zero-pad flag, in the same
directory — and the thumbnail invocation optionally produces a single
preview frame at quarter duration in that directory. -/
theorem c7_output_layout (ffmpeg_bin video_path encoder : String) (crf : ℤ)
    (base video_name : String) (duration : ℚ) (hd : 0 < duration) :
    (∃ pre, ffmpeg_cmd ffmpeg_bin video_path encoder crf (output_dir_of base video_name)
        = pre ++ ["-hls_segment_filename",
                  seg_pattern_of (output_dir_of base video_name),
                  output_file_of (output_dir_of base video_name),
                  "-progress", "pipe:1", "-nostats"]) ∧
    output_file_of (output_dir_of base video_name)
      = base ++ "/" ++ video_name ++ "/" ++ "output.m3u8" ∧
    seg_pattern_of (output_dir_of base video_name)
      = base ++ "/" ++ video_name ++ "/" ++ "output%0d.ts" ∧
    thumbnail_cmd ffmpeg_bin video_path (output_dir_of base video_name) duration
      = some [ffmpeg_bin, "-y", "-ss", seek_str (quarter_time duration),
              "-i", video_path, "-frames:v", "1",
              base ++ "/" ++ video_name ++ "/" ++ "thumbnail.jpg"] := by
  refine ⟨⟨[ffmpeg_bin, "-i", video_path, "-c:v", encoder, "-profile:v", "high",
            "-level", "4.0", "-pix_fmt", "yuv420p"]
          ++ rate_control_args encoder crf
          ++ ["-threads", "0", "-g", "240", "-keyint_min", "240", "-sc_threshold", "0",
              "-c:a", "aac", "-b:a", "128k", "-ac", "2", "-ar", "48000",
              "-f", "hls", "-hls_time", "10", "-hls_playlist_type", "vod",
              "-hls_segment_type", "mpegts", "-hls_flags", "independent_segments"],
          ?_⟩, rfl, rfl, ?_⟩
  · simp [ffmpeg_cmd]
  · unfold thumbnail_cmd
    rw [if_neg (not_le.mpr hd)]
    rfl

/-- C7 witness at a concrete input file, output base and duration. -/
theorem c7_output_layout_witness :
    (0 : ℚ) < 2 ∧
    ((∃ pre, ffmpeg_cmd "ffmpeg" "in.mp4" "libx264" 20 (output_dir_of "out" "vid")
        = pre ++ ["-hls_segment_filename", seg_pattern_of (output_dir_of "out" "vid"),
                  output_file_of (output_dir_of "out" "vid"),
                  "-progress", "pipe:1", "-nostats"]) ∧
     output_file_of (output_dir_of "out" "vid")
       = "out" ++ "/" ++ "vid" ++ "/" ++ "output.m3u8" ∧
     seg_pattern_of (output_dir_of "out" "vid")
       = "out" ++ "/" ++ "vid" ++ "/" ++ "output%0d.ts" ∧
     thumbnail_cmd "ffmpeg" "in.mp4" (output_dir_of "out" "vid") 2
       = some ["ffmpeg", "-y", "-ss", seek_str (quarter_time 2), "-i", "in.mp4",
               "-frames:v", "1", "out" ++ "/" ++ "vid" ++ "/" ++ "thumbnail.jpg"]) :=
  ⟨by norm_num, c7_output_layout "ffmpeg" "in.mp4" "libx264" 20 "out" "vid" 2 (by norm_num)⟩

end HLS
